import Mathlib

/-!
Shallow embedding of the TCP protocol engine in `src/tcp.rs` (a minimal
user-space TCP handshake engine over a virtual interface).  Machine integers
(`u32`, `u16`) are modelled as `Nat` with explicit reduction modulo `2^32`
(resp. value ranges) exactly where the Rust code performs wrapping
arithmetic.  The external crate `etherparse` (header records, serialization,
checksum) is modelled at field level from its documented behaviour; the
virtual interface (`tun_tap::Iface::send`) is modelled as a trace of
transmitted segments returned by each operation.
-/

/-- `2^32`, the modulus of Rust `u32` wrapping arithmetic. -/
def U32 : Nat := 4294967296

/-- `enum State { SynRcvd, Estab }` from `tcp.rs`. -/
inductive State where
  | SynRcvd : State
  | Estab : State
deriving Repr, DecidableEq, Inhabited

/-- `State::is_synchronized` from `tcp.rs`. -/
def State.is_synchronized : State → Bool
  | State.SynRcvd => false
  | State.Estab => true

/-- `struct SendSequenceSpace` from `tcp.rs` (RFC 793 s3.2 F5 send side). -/
structure SendSequenceSpace where
  una : Nat
  nxt : Nat
  wnd : Nat
  up : Bool
  wl1 : Nat
  wl2 : Nat
  iss : Nat
deriving Repr, DecidableEq, Inhabited

/-- `struct RecvSequenceSpace` from `tcp.rs` (RFC 793 s3.2 F5 receive side). -/
structure RecvSequenceSpace where
  nxt : Nat
  wnd : Nat
  up : Bool
  irs : Nat
deriving Repr, DecidableEq, Inhabited

/-- The outbound `etherparse::TcpHeader` template cached in a `Connection`.
Field-level model of the parts of the header this program reads or writes.
The program never writes TCP options, so the header is always 20 bytes. -/
structure TcpHeader where
  source_port : Nat
  destination_port : Nat
  sequence_number : Nat
  acknowledgment_number : Nat
  window_size : Nat
  checksum : Nat
  urgent_pointer : Nat
  fin : Bool
  syn : Bool
  rst : Bool
  psh : Bool
  ack : Bool
  urg : Bool
deriving Repr, DecidableEq, Inhabited

/-- The outbound `etherparse::Ipv4Header` template cached in a `Connection`.
The program never writes IP options, so the header is always 20 bytes. -/
structure Ipv4Header where
  source : List Nat
  destination : List Nat
  payload_len : Nat
  time_to_live : Nat
  protocol : Nat
deriving Repr, DecidableEq, Inhabited

/-- `struct Connection` from `tcp.rs`. -/
structure Connection where
  state : State
  send : SendSequenceSpace
  recv : RecvSequenceSpace
  ip : Ipv4Header
  tcp : TcpHeader
deriving Repr, DecidableEq, Inhabited

/-- The view of an inbound `etherparse::TcpHeaderSlice` used by `tcp.rs`:
ports, sequence/acknowledgment numbers, flags and window size. -/
structure SegIn where
  source_port : Nat
  destination_port : Nat
  sequence_number : Nat
  acknowledgment_number : Nat
  window_size : Nat
  syn : Bool
  ack : Bool
  fin : Bool
  rst : Bool
deriving Repr, DecidableEq, Inhabited

/-- The view of an inbound `etherparse::Ipv4HeaderSlice` used by `tcp.rs`:
source and destination addresses (4 bytes each). -/
structure IpIn where
  source : List Nat
  destination : List Nat
deriving Repr, DecidableEq, Inhabited

/-- One segment handed to `iface.send` in `Connection::write`: the IP and TCP
headers exactly as serialized (field level) plus the payload bytes written. -/
structure SentSegment where
  ip : Ipv4Header
  tcp : TcpHeader
  payload : List Nat
deriving Repr, DecidableEq, Inhabited

/-- `etherparse::TcpHeader::header_len()`: 20 bytes, since this program never
sets TCP options (`TcpHeader::new` and `Default` build option-less headers). -/
def TcpHeader.header_len (_ : TcpHeader) : Nat := 20

/-- `etherparse::Ipv4Header::header_len()`: 20 bytes, since this program never
sets IP options. -/
def Ipv4Header.header_len (_ : Ipv4Header) : Nat := 20

/-- The all-zero `etherparse::TcpHeader` produced by `Default`. -/
def TcpHeader.zero : TcpHeader :=
  { source_port := 0, destination_port := 0, sequence_number := 0,
    acknowledgment_number := 0, window_size := 0, checksum := 0,
    urgent_pointer := 0, fin := false, syn := false, rst := false,
    psh := false, ack := false, urg := false }

/-- The all-zero `etherparse::Ipv4Header` produced by `Default`. -/
def Ipv4Header.zero : Ipv4Header :=
  { source := [0, 0, 0, 0], destination := [0, 0, 0, 0], payload_len := 0,
    time_to_live := 0, protocol := 0 }

/-- `etherparse::TcpHeader::new(source_port, destination_port, seq, window)`:
all flags clear, acknowledgment number, checksum and urgent pointer zero. -/
def TcpHeader.new (source_port destination_port seq window : Nat) : TcpHeader :=
  { TcpHeader.zero with
    source_port := source_port, destination_port := destination_port,
    sequence_number := seq, window_size := window }

/-- `etherparse::Ipv4Header::new(payload_len, ttl, protocol, source, dest)`. -/
def Ipv4Header.new (payload_len time_to_live protocol : Nat)
    (source destination : List Nat) : Ipv4Header :=
  { source := source, destination := destination, payload_len := payload_len,
    time_to_live := time_to_live, protocol := protocol }

/-- Big-endian bytes of a 16-bit value. -/
def u16be (n : Nat) : List Nat := [n / 256 % 256, n % 256]

/-- Big-endian bytes of a 32-bit value. -/
def u32be (n : Nat) : List Nat :=
  [n / 16777216 % 256, n / 65536 % 256, n / 256 % 256, n % 256]

/-- The flag byte of a serialized TCP header (FIN | SYN | RST | PSH | ACK | URG). -/
def flagsByte (t : TcpHeader) : Nat :=
  (if t.fin then 1 else 0) + (if t.syn then 2 else 0) + (if t.rst then 4 else 0)
    + (if t.psh then 8 else 0) + (if t.ack then 16 else 0)
    + (if t.urg then 32 else 0)

/-- The 20 bytes of an option-less TCP header with the given checksum field. -/
def tcpHeaderBytes (t : TcpHeader) (csum : Nat) : List Nat :=
  u16be t.source_port ++ u16be t.destination_port
    ++ u32be t.sequence_number ++ u32be t.acknowledgment_number
    ++ [80, flagsByte t] ++ u16be t.window_size ++ u16be csum
    ++ u16be t.urgent_pointer

/-- The IPv4 pseudo-header for the TCP checksum: source address, destination
address, a zero byte, protocol number 6 (TCP), and the 16-bit TCP length. -/
def pseudoHeaderBytes (ip : Ipv4Header) (tcp_len : Nat) : List Nat :=
  ip.source ++ ip.destination ++ [0, 6] ++ u16be tcp_len

/-- Group a byte list into big-endian 16-bit words, zero-padding the tail. -/
def words16 : List Nat → List Nat
  | [] => []
  | [a] => [a * 256]
  | a :: b :: rest => (a * 256 + b) :: words16 rest

/-- Fold the carries of a ones-complement sum until it fits in 16 bits; the
fuel argument strictly bounds the number of folds actually needed. -/
def foldCarryAux : Nat → Nat → Nat
  | 0, s => s
  | fuel + 1, s => if s < 65536 then s else foldCarryAux fuel (s % 65536 + s / 65536)

/-- End-around-carry reduction of a ones-complement sum to 16 bits. -/
def foldCarry (s : Nat) : Nat := foldCarryAux s s

/-- The internet checksum (RFC 1071) of a byte list: ones-complement of the
ones-complement sum of its big-endian 16-bit words. -/
def internetChecksum (bytes : List Nat) : Nat :=
  65535 - foldCarry ((words16 bytes).sum)

/-- `etherparse::TcpHeader::calc_checksum_ipv4(ip, payload)`: the internet
checksum over the IPv4 pseudo-header (with TCP length `header_len +
payload.len()`), the TCP header with a zero checksum field, and the payload. -/
def TcpHeader.calc_checksum_ipv4 (t : TcpHeader) (ip : Ipv4Header)
    (payload : List Nat) : Nat :=
  internetChecksum
    (pseudoHeaderBytes ip (t.header_len + payload.length)
      ++ tcpHeaderBytes t 0 ++ payload)

/-- `fn is_between_wrapped(start, x, end)` from `tcp.rs`, mirroring the Rust
`match start.cmp(&x)` on the `u32` representatives. -/
def is_between_wrapped (start x endn : Nat) : Bool :=
  if start = x then false
  else if start < x then
    if endn ≥ start ∧ endn ≤ x then false else true
  else
    if endn > x ∧ endn < start then true else false

/-- `Connection::write(iface, payload)` from `tcp.rs`.  Stamps the cached TCP
header's sequence/acknowledgment numbers from `send.nxt`/`recv.nxt`, updates
the IP payload length, computes the checksum with an EMPTY payload slice (the
source passes `&[]`), serializes into a 1500-byte scratch buffer (20 IP header
bytes, 20 TCP header bytes, then as much payload as fits, `io::Write` for
`&mut [u8]` truncating to the remaining space), sends the written bytes once,
then advances `send.nxt` by the payload bytes written plus one for a set SYN
and one for a set FIN, clearing those flags.  Returns the updated connection,
the one-segment transmit trace, and the returned `payload_bytes`. -/
def Connection.write (c : Connection) (payload : List Nat) :
    Connection × List SentSegment × Nat :=
  let tcp1 : TcpHeader :=
    { c.tcp with sequence_number := c.send.nxt, acknowledgment_number := c.recv.nxt }
  let ip1 : Ipv4Header :=
    { c.ip with payload_len := tcp1.header_len + payload.length }
  let tcp2 : TcpHeader :=
    { tcp1 with checksum := tcp1.calc_checksum_ipv4 ip1 [] }
  let payload_bytes : Nat := min payload.length (1500 - ip1.header_len - tcp2.header_len)
  let sent : SentSegment := { ip := ip1, tcp := tcp2, payload := payload.take payload_bytes }
  let nxt1 : Nat := (c.send.nxt + payload_bytes) % U32
  let nxt2 : Nat := if tcp2.syn then (nxt1 + 1) % U32 else nxt1
  let tcp3 : TcpHeader := if tcp2.syn then { tcp2 with syn := false } else tcp2
  let nxt3 : Nat := if tcp3.fin then (nxt2 + 1) % U32 else nxt2
  let tcp4 : TcpHeader := if tcp3.fin then { tcp3 with fin := false } else tcp3
  ({ c with send := { c.send with nxt := nxt3 }, ip := ip1, tcp := tcp4 },
    [sent], payload_bytes)

/-- `Connection::send_rst(iface)` from `tcp.rs`: sets RST and zeroes the
sequence/acknowledgment numbers in the cached template, resets the IP payload
length to the TCP header length, and transmits through `write`. -/
def Connection.send_rst (c : Connection) : Connection × List SentSegment :=
  let c1 : Connection :=
    { c with
      tcp := { c.tcp with rst := true, sequence_number := 0, acknowledgment_number := 0 },
      ip := { c.ip with payload_len := c.tcp.header_len } }
  let r := c1.write []
  (r.1, r.2.1)

/-- `Connection::accept(iface, iph, tcph, data)` from `tcp.rs`.  Returns
`none` for a non-SYN segment; otherwise builds a fresh connection in
`SynRcvd` (recv space from the segment, `iss = 0`, `una = iss`,
`nxt = una + 1`, `wnd = 10`), caches a SYN+ACK header template and the IP
header, and transmits it through `write`.  The `+ 1` on the inbound sequence
number is `u32` (wrapping) arithmetic.  Returns the connection together with
the transmit trace of the `write` call. -/
def Connection.accept (iph : IpIn) (tcph : SegIn) (_data : List Nat) :
    Option (Connection × List SentSegment) :=
  if !tcph.syn then none
  else
    let recv : RecvSequenceSpace :=
      { nxt := (tcph.sequence_number + 1) % U32, wnd := tcph.window_size,
        up := false, irs := tcph.sequence_number }
    let iss : Nat := 0
    let una : Nat := iss
    let send : SendSequenceSpace :=
      { una := una, nxt := una + 1, wnd := 10, up := false,
        wl1 := 0, wl2 := 0, iss := iss }
    let syn_ack0 : TcpHeader :=
      TcpHeader.new tcph.destination_port tcph.source_port iss send.wnd
    let syn_ack1 : TcpHeader :=
      { syn_ack0 with syn := true, ack := true, acknowledgment_number := recv.nxt }
    let ip0 : Ipv4Header :=
      Ipv4Header.new syn_ack1.header_len 64 6 iph.destination iph.source
    let ip1 : Ipv4Header := { ip0 with payload_len := syn_ack1.header_len }
    let syn_ack2 : TcpHeader :=
      { syn_ack1 with checksum := syn_ack1.calc_checksum_ipv4 ip1 [] }
    let conn : Connection :=
      { state := State.SynRcvd, send := send, recv := recv, ip := ip1, tcp := syn_ack2 }
    let r := conn.write []
    some (r.1, r.2.1)

/-- The tail of `Connection::on_packet` after the two acceptability checks:
the `match self.state` state gate followed by the logging statement. -/
def Connection.on_packet_gate (c : Connection) (tcph : SegIn) :
    Connection × List SentSegment × Bool :=
  match c.state with
  | State.SynRcvd => if !tcph.ack then (c, [], false) else (c, [], true)
  | State.Estab => (c, [], true)

/-- `Connection::on_packet(iface, iph, tcph, data)` from `tcp.rs`.  Runs the
ACK-acceptability check, then the window/sequence-acceptability check
(branching on `data.len()`), then the state-specific gate (ACK required in
`SynRcvd`); each failure returns early.  The source mutates nothing and sends
nothing on any path; the returned `Bool` records whether the segment passed
every gate and reached the final logging statement, and the returned list is
the (always empty) transmit trace. -/
def Connection.on_packet (c : Connection) (tcph : SegIn) (data : List Nat) :
    Connection × List SentSegment × Bool :=
  let ackn := tcph.acknowledgment_number
  if !is_between_wrapped c.send.una ackn ((c.send.nxt + 1) % U32) then (c, [], false)
  else
    let seqn := tcph.sequence_number
    let wend := (c.recv.nxt + c.recv.wnd) % U32
    let slen := data.length + (if tcph.syn || tcph.fin then 1 else 0)
    if data.length = 0 then
      if c.recv.wnd = 0 then
        if seqn ≠ c.recv.nxt then (c, [], false)
        else c.on_packet_gate tcph
      else if !is_between_wrapped ((c.recv.nxt + U32 - 1) % U32) seqn wend then
        (c, [], false)
      else c.on_packet_gate tcph
    else
      if c.recv.wnd = 0 then (c, [], false)
      else if !is_between_wrapped ((c.recv.nxt + U32 - 1) % U32) seqn wend
          && !is_between_wrapped c.recv.nxt ((seqn + (slen - 1)) % U32) wend then
        (c, [], false)
      else c.on_packet_gate tcph

/-- Arithmetic characterization of `is_between_wrapped`: on `u32` values it
holds exactly when the forward distance from `start` to `x` on the 32-bit
circle is positive and smaller than the forward distance from `start` to
`end`. -/
theorem ibw_iff_mod (s x e : Nat) (hs : s < U32) (hx : x < U32) (he : e < U32) :
    is_between_wrapped s x e = true ↔
      0 < (x + U32 - s) % U32 ∧ (x + U32 - s) % U32 < (e + U32 - s) % U32 := by
  simp only [is_between_wrapped, U32] at *
  split_ifs with h1 h2 h3 h4 <;> simp <;> omega

/-- `is_between_wrapped` is invariant under rotating all three arguments by
the same offset on the 32-bit circle. -/
theorem ibw_shift (s x e k : Nat) (hs : s < U32) (hx : x < U32) (he : e < U32) :
    is_between_wrapped ((s + k) % U32) ((x + k) % U32) ((e + k) % U32)
      = is_between_wrapped s x e := by
  rw [Bool.eq_iff_iff]
  rw [ibw_iff_mod _ _ _ (Nat.mod_lt _ (by simp [U32])) (Nat.mod_lt _ (by simp [U32]))
    (Nat.mod_lt _ (by simp [U32]))]
  rw [ibw_iff_mod s x e hs hx he]
  simp only [U32] at *
  constructor <;> intro h <;> omega

/-- C5: `is_between_wrapped(start, x, end)` is true iff, walking forward from
`start` around the 32-bit circular number line, `x` is strictly between
`start` and `end` (exclusive of both endpoints); in particular it is false
when `start = x`; for `start < x` it is false iff `end ≥ start ∧ end ≤ x`;
for `start > x` it is true iff `end > x ∧ end < start`; and the three
concrete examples from the spec evaluate as stated. -/
theorem c5_is_between_wrapped_contract :
    (∀ s x e : Nat, s < U32 → x < U32 → e < U32 →
      (is_between_wrapped s x e = true ↔
        0 < (x + U32 - s) % U32 ∧ (x + U32 - s) % U32 < (e + U32 - s) % U32))
    ∧ (∀ s x e : Nat, s = x → is_between_wrapped s x e = false)
    ∧ (∀ s x e : Nat, s < x →
        (is_between_wrapped s x e = false ↔ (e ≥ s ∧ e ≤ x)))
    ∧ (∀ s x e : Nat, s > x →
        (is_between_wrapped s x e = true ↔ (e > x ∧ e < s)))
    ∧ is_between_wrapped 5 10 20 = true
    ∧ is_between_wrapped 5 3 20 = false
    ∧ is_between_wrapped 4294967290 2 10 = true := by
  refine ⟨ibw_iff_mod, ?_, ?_, ?_, by decide, by decide, by decide⟩
  · intro s x e h
    simp [is_between_wrapped, h]
  · intro s x e h
    simp only [is_between_wrapped, if_neg (Nat.ne_of_lt h), if_pos h]
    split_ifs with hc <;> simp [hc]
  · intro s x e h
    simp only [is_between_wrapped, if_neg (Nat.ne_of_gt h),
      if_neg (Nat.not_lt.mpr (Nat.le_of_lt h))]
    split_ifs with hc <;> simp [hc]

/-- Witness for C5: the characterization applied at the concrete triple
`(3, 10, 20)`. -/
theorem c5_witness :
    is_between_wrapped 3 10 20 = true ↔
      0 < (10 + U32 - 3) % U32 ∧ (10 + U32 - 3) % U32 < (20 + U32 - 3) % U32 :=
  c5_is_between_wrapped_contract.1 3 10 20 (by decide) (by decide) (by decide)

/-- C10: `is_between_wrapped` is invariant under uniform rotation of the
32-bit circular sequence space, and equivalently holds iff
`0 < (x - start) mod 2^32 < (end - start) mod 2^32`. -/
theorem c10_is_between_wrapped_shift_invariant :
    (∀ s x e k : Nat, s < U32 → x < U32 → e < U32 → k < U32 →
      is_between_wrapped ((s + k) % U32) ((x + k) % U32) ((e + k) % U32)
        = is_between_wrapped s x e)
    ∧ (∀ s x e : Nat, s < U32 → x < U32 → e < U32 →
      (is_between_wrapped s x e = true ↔
        0 < (x + U32 - s) % U32 ∧ (x + U32 - s) % U32 < (e + U32 - s) % U32)) :=
  ⟨fun s x e k hs hx he _hk => ibw_shift s x e k hs hx he, ibw_iff_mod⟩

/-- Witness for C10: rotation by `4294967291` carries the non-wrapping triple
`(5, 10, 20)` to a wrapping one without changing the verdict. -/
theorem c10_witness :
    is_between_wrapped ((5 + 4294967291) % U32) ((10 + 4294967291) % U32)
        ((20 + 4294967291) % U32)
      = is_between_wrapped 5 10 20 :=
  c10_is_between_wrapped_shift_invariant.1 5 10 20 4294967291
    (by decide) (by decide) (by decide) (by decide)

/-- `Connection::on_packet` mutates nothing and transmits nothing on any
path: every early return and the fall-through return the connection as it
was, and `iface` is never written. -/
theorem on_packet_gate_pure (c : Connection) (tcph : SegIn) :
    (c.on_packet_gate tcph).1 = c ∧ (c.on_packet_gate tcph).2.1 = [] := by
  unfold Connection.on_packet_gate
  split
  · split_ifs <;> exact ⟨rfl, rfl⟩
  · exact ⟨rfl, rfl⟩

/-- `Connection::on_packet` as a whole neither mutates the connection nor
sends on the transport, on every control path. -/
theorem on_packet_pure (c : Connection) (tcph : SegIn) (data : List Nat) :
    (c.on_packet tcph data).1 = c ∧ (c.on_packet tcph data).2.1 = [] := by
  simp only [Connection.on_packet]
  split_ifs <;> first
    | exact ⟨rfl, rfl⟩
    | exact on_packet_gate_pure c tcph

/-- C9: an inbound segment that fails the ACK-acceptability check, the
window/sequence-acceptability check, or a state-specific gate (the processed
flag is `false`) leaves every field of the connection unchanged and sends
nothing on the transport. -/
theorem c9_inadmissible_segment_silent (c : Connection) (tcph : SegIn)
    (data : List Nat) (_h : (c.on_packet tcph data).2.2 = false) :
    (c.on_packet tcph data).1 = c ∧ (c.on_packet tcph data).2.1 = [] :=
  on_packet_pure c tcph data

/-- A `SynRcvd` connection as `accept` leaves it (`iss = 0`, `una = 0`,
`nxt = 1`) after a peer SYN with sequence number 1000 and window 64. -/
def c1conn : Connection :=
  { state := State.SynRcvd,
    send := { una := 0, nxt := 1, wnd := 10, up := false, wl1 := 0, wl2 := 0, iss := 0 },
    recv := { nxt := 1001, wnd := 64, up := false, irs := 1000 },
    ip := Ipv4Header.zero, tcp := TcpHeader.zero }

/-- The handshake's final ACK for `c1conn`: `ackn = iss + 1 = 1`,
`seqn = recv.nxt = 1001`. -/
def c1ackseg : SegIn :=
  { source_port := 0, destination_port := 0, sequence_number := 1001,
    acknowledgment_number := 1, window_size := 64, syn := false, ack := true,
    fin := false, rst := false }

/-- The same segment without the ACK flag. -/
def c1noackseg : SegIn := { c1ackseg with ack := false }

/-- C1 (code-bug evaluation): the handshake's final ACK passes the ACK
check, the window check and the `SynRcvd` ACK gate (the segment is fully
processed), yet the connection stays in `SynRcvd` — the source never assigns
`State::Estab` inside `on_packet`.  A non-ACK segment also leaves the state
unchanged, as the claim says. -/
theorem c1_final_ack_leaves_synrcvd :
    (c1conn.on_packet c1ackseg []).2.2 = true
    ∧ (c1conn.on_packet c1ackseg []).1.state = State.SynRcvd
    ∧ (c1conn.on_packet c1noackseg []).2.2 = false
    ∧ (c1conn.on_packet c1noackseg []).1.state = State.SynRcvd := by decide

/-- An `Estab` connection advertising a zero receive window at
`recv.nxt = 500`. -/
def c3conn : Connection :=
  { state := State.Estab,
    send := { una := 0, nxt := 10, wnd := 10, up := false, wl1 := 0, wl2 := 0, iss := 0 },
    recv := { nxt := 500, wnd := 0, up := false, irs := 0 },
    ip := Ipv4Header.zero, tcp := TcpHeader.zero }

/-- A SYN segment with empty payload (`slen = 1`) at `seqn = recv.nxt = 500`
with an acceptable ACK number. -/
def c3seg : SegIn :=
  { source_port := 0, destination_port := 0, sequence_number := 500,
    acknowledgment_number := 5, window_size := 0, syn := true, ack := true,
    fin := false, rst := false }

/-- An `Estab` connection with `recv.nxt = 10`, `recv.wnd = 5` (so
`wend = 15`). -/
def c3conn2 : Connection :=
  { state := State.Estab,
    send := { una := 0, nxt := 10, wnd := 10, up := false, wl1 := 0, wl2 := 0, iss := 0 },
    recv := { nxt := 10, wnd := 5, up := false, irs := 0 },
    ip := Ipv4Header.zero, tcp := TcpHeader.zero }

/-- A plain data segment at `seqn = 8` whose 3-byte payload ends exactly at
`seqn + slen - 1 = 10 = recv.nxt`, inside `[recv.nxt, wend)`. -/
def c3seg2 : SegIn :=
  { source_port := 0, destination_port := 0, sequence_number := 8,
    acknowledgment_number := 5, window_size := 0, syn := false, ack := true,
    fin := false, rst := false }

/-- C3 (code-bug evaluation).  First: a SYN with empty payload has
`slen = 1 > 0` while `recv.wnd = 0`, so the claim (and RFC 793's table, which
the source's own comments quote) rejects it; the source branches on
`data.len()` instead of `slen` and accepts it at `seqn = recv.nxt`.  Second:
a 3-byte segment whose last byte lands exactly on `recv.nxt` lies in
`[recv.nxt, wend)` so the claim accepts it; the source tests the last byte
with `is_between_wrapped(recv.nxt, ..)` instead of `recv.nxt - 1` and
rejects it. -/
theorem c3_window_check_deviates :
    (c3conn.recv.wnd = 0 ∧ c3seg.syn = true
      ∧ (c3conn.on_packet c3seg []).2.2 = true)
    ∧ ((8 + 3 - 1) % U32 = c3conn2.recv.nxt
      ∧ (c3conn2.on_packet c3seg2 [0, 0, 0]).2.2 = false) := by decide

/-- An `Estab` connection with `send.una = 100`, `send.nxt = 200` and an open
receive window at `recv.nxt = 1000`. -/
def c6conn : Connection :=
  { state := State.Estab,
    send := { una := 100, nxt := 200, wnd := 10, up := false, wl1 := 0, wl2 := 0, iss := 0 },
    recv := { nxt := 1000, wnd := 100, up := false, irs := 0 },
    ip := Ipv4Header.zero, tcp := TcpHeader.zero }

/-- An in-window empty segment for `c6conn` carrying `ackn = 150`. -/
def c6segMid : SegIn :=
  { source_port := 0, destination_port := 0, sequence_number := 1000,
    acknowledgment_number := 150, window_size := 0, syn := false, ack := true,
    fin := false, rst := false }

/-- The same segment with `ackn = 100` (equal to `send.una`). -/
def c6segLow : SegIn := { c6segMid with acknowledgment_number := 100 }

/-- The same segment with `ackn = 201` (one past `send.nxt`). -/
def c6segHigh : SegIn := { c6segMid with acknowledgment_number := 201 }

/-- C6: `on_packet` drops a segment (unchanged connection, nothing sent,
not processed) whenever `is_between_wrapped(send.una, ackn, send.nxt + 1)`
fails; that test is exactly `send.una < ackn ≤ send.nxt` on the 32-bit
circle whenever `send.nxt + 1` does not wrap onto `send.una`; and with
`send.una = 100`, `send.nxt = 200` an ACK of 150 is accepted while ACKs of
100 and 201 are rejected. -/
theorem c6_ack_acceptability :
    (∀ (c : Connection) (tcph : SegIn) (data : List Nat),
      is_between_wrapped c.send.una tcph.acknowledgment_number
          ((c.send.nxt + 1) % U32) = false →
      c.on_packet tcph data = (c, [], false))
    ∧ (∀ una ackn nxt : Nat, una < U32 → ackn < U32 → nxt < U32 →
        (nxt + 1) % U32 ≠ una →
        (is_between_wrapped una ackn ((nxt + 1) % U32) = true ↔
          (0 < (ackn + U32 - una) % U32 ∧
            (ackn + U32 - una) % U32 ≤ (nxt + U32 - una) % U32)))
    ∧ (c6conn.on_packet c6segMid []).2.2 = true
    ∧ c6conn.on_packet c6segLow [] = (c6conn, [], false)
    ∧ c6conn.on_packet c6segHigh [] = (c6conn, [], false) := by
  refine ⟨?_, ?_, by decide, by decide, by decide⟩
  · intro c tcph data h
    simp [Connection.on_packet, h]
  · intro una ackn nxt h1 h2 h3 h4
    rw [ibw_iff_mod una ackn ((nxt + 1) % U32) h1 h2
      (Nat.mod_lt _ (by simp [U32]))]
    simp only [U32] at *
    constructor <;> intro h <;> omega

/-- Witness for C6: the drop branch applied to the concrete rejected ACK of
100. -/
theorem c6_witness : c6conn.on_packet c6segLow [] = (c6conn, [], false) :=
  c6_ack_acceptability.1 c6conn c6segLow [] (by decide)

/-- Witness for C9: a non-ACK segment in `SynRcvd` fails the state gate and
is dropped with no state change and no transmission. -/
theorem c9_witness :
    (c1conn.on_packet c1noackseg []).1 = c1conn
      ∧ (c1conn.on_packet c1noackseg []).2.1 = [] :=
  c9_inadmissible_segment_silent c1conn c1noackseg [] (by decide)

/-- An established connection with nonzero `send.nxt = 5` and
`recv.nxt = 7`. -/
def c2conn : Connection :=
  { state := State.Estab,
    send := { una := 0, nxt := 5, wnd := 10, up := false, wl1 := 0, wl2 := 0, iss := 0 },
    recv := { nxt := 7, wnd := 100, up := false, irs := 0 },
    ip := Ipv4Header.zero, tcp := TcpHeader.zero }

/-- C2 counterexample: on `c2conn`, the one segment `send_rst` transmits does
NOT carry zero sequence/acknowledgment numbers — `write` re-stamps them from
`send.nxt = 5` and `recv.nxt = 7` after `send_rst` zeroed the template. -/
theorem c2_counterexample :
    ¬ ((c2conn.send_rst.2.map fun s =>
        (s.tcp.sequence_number, s.tcp.acknowledgment_number)) = [(0, 0)]) := by
  decide

/-- C2 amended: `send_rst` transmits exactly one segment with the RST flag
set, but its transmitted sequence and acknowledgment numbers are `send.nxt`
and `recv.nxt` (the zeroes written into the cached template are overwritten
by `write` before serialization), so they are zero only when those fields
are. -/
theorem c2_send_rst_amended (c : Connection) :
    (c.send_rst.2.map fun s =>
        (s.tcp.rst, s.tcp.sequence_number, s.tcp.acknowledgment_number))
      = [(true, c.send.nxt, c.recv.nxt)]
    ∧ c.send_rst.2.length = 1 := by
  simp [Connection.send_rst, Connection.write]

/-- The inbound IP header view for the C7 handshake example. -/
def c7iph : IpIn := { source := [10, 0, 0, 1], destination := [10, 0, 0, 2] }

/-- The spec's concrete SYN: `seq = 1000`, `window = 64`. -/
def c7syn : SegIn :=
  { source_port := 4000, destination_port := 80, sequence_number := 1000,
    acknowledgment_number := 0, window_size := 64, syn := true, ack := false,
    fin := false, rst := false }

/-- The same segment without SYN. -/
def c7nosyn : SegIn := { c7syn with syn := false }

/-- C7: `accept` creates no connection for a non-SYN segment; for a SYN with
sequence number `s` and window `w` it returns a `SynRcvd` connection with
`recv.irs = s`, `recv.nxt = (s + 1) mod 2^32`, `recv.wnd = w`,
`send.una = send.iss`, and emits exactly one reply segment with SYN and ACK
set whose acknowledgment number is `recv.nxt`; concretely `s = 1000`,
`w = 64` gives `recv.nxt = 1001`, `recv.irs = 1000` and a reply
acknowledging 1001. -/
theorem c7_accept_contract :
    (∀ (iph : IpIn) (tcph : SegIn) (data : List Nat), tcph.syn = false →
      Connection.accept iph tcph data = none)
    ∧ (∀ (iph : IpIn) (tcph : SegIn) (data : List Nat), tcph.syn = true →
      ∃ conn s, Connection.accept iph tcph data = some (conn, [s])
        ∧ conn.state = State.SynRcvd
        ∧ conn.recv.irs = tcph.sequence_number
        ∧ conn.recv.nxt = (tcph.sequence_number + 1) % U32
        ∧ conn.recv.wnd = tcph.window_size
        ∧ conn.send.una = conn.send.iss
        ∧ s.tcp.syn = true ∧ s.tcp.ack = true
        ∧ s.tcp.acknowledgment_number = conn.recv.nxt)
    ∧ ((Connection.accept c7iph c7syn []).map fun r =>
        (r.1.recv.nxt, r.1.recv.irs, r.2.map fun s => s.tcp.acknowledgment_number))
      = some (1001, 1000, [1001]) := by
  refine ⟨?_, ?_, by decide⟩
  · intro iph tcph data h
    simp [Connection.accept, h]
  · intro iph tcph data h
    obtain ⟨sp, dp, sq, an, ws, sy, ak, fi, rs⟩ := tcph
    cases h
    exact ⟨_, _, rfl, rfl, rfl, rfl, rfl, rfl, rfl, rfl, rfl⟩

/-- Witness for C7: a concrete non-SYN segment creates no connection. -/
theorem c7_witness : Connection.accept c7iph c7nosyn [] = none :=
  c7_accept_contract.1 c7iph c7nosyn [] (by decide)

/-- A quiescent connection with `send.nxt = 0` and no SYN/FIN pending. -/
def c8conn : Connection :=
  { state := State.Estab,
    send := { una := 0, nxt := 0, wnd := 10, up := false, wl1 := 0, wl2 := 0, iss := 0 },
    recv := { nxt := 0, wnd := 10, up := false, irs := 0 },
    ip := Ipv4Header.zero, tcp := TcpHeader.zero }

set_option maxRecDepth 40000 in
/-- C8 counterexample: a successful `write` of a 1461-byte payload advances
`send.nxt` by only 1460, not by `payload.len()` — the 1500-byte scratch
buffer holds 20 IP header bytes, 20 TCP header bytes and at most 1460
payload bytes, and `io::Write` for `&mut [u8]` silently truncates. -/
theorem c8_counterexample :
    ¬ ((c8conn.write (List.replicate 1461 0)).1.send.nxt
        = (c8conn.send.nxt + (List.replicate 1461 (0 : Nat)).length) % U32) := by
  decide

/-- C8 amended: a successful `write` advances `send.nxt` (mod `2^32`) by the
number of payload bytes actually written, `min(payload.len(), 1460)` — equal
to `payload.len()` whenever the payload fits the scratch buffer — plus one if
the cached SYN flag was set and one if FIN was set, and both flags are clear
afterwards. -/
theorem c8_write_advances_send_nxt (c : Connection) (payload : List Nat) :
    (c.write payload).1.send.nxt
      = (c.send.nxt + min payload.length 1460
          + (if c.tcp.syn then 1 else 0) + (if c.tcp.fin then 1 else 0)) % U32
    ∧ (c.write payload).1.tcp.syn = false
    ∧ (c.write payload).1.tcp.fin = false := by
  cases hs : c.tcp.syn <;> cases hf : c.tcp.fin <;>
    simp [Connection.write, hs, hf, TcpHeader.header_len, Ipv4Header.header_len,
      U32]

/-- An established connection with a nontrivial cached template, used to
evaluate the checksum path of `write`. -/
def c4conn : Connection :=
  { state := State.Estab,
    send := { una := 0, nxt := 100, wnd := 10, up := false, wl1 := 0, wl2 := 0, iss := 0 },
    recv := { nxt := 1000, wnd := 100, up := false, irs := 0 },
    ip := { source := [192, 168, 0, 1], destination := [192, 168, 0, 2],
            payload_len := 20, time_to_live := 64, protocol := 6 },
    tcp :=
      { TcpHeader.zero with
        source_port := 80, destination_port := 12345,
        window_size := 10, ack := true } }

/-- The result of `write` on `c4conn` with the one-byte payload `[1]`. -/
def c4out : Connection × List SentSegment × Nat := c4conn.write [1]

/-- The segment that `write` transmitted. -/
def c4sent : SentSegment := c4out.2.1.headD default

/-- C4 (code-bug evaluation): the checksum stamped into the transmitted
segment equals the checksum over the pseudo-header and TCP header with an
EMPTY payload (the source passes `&[]` to `calc_checksum_ipv4`), and differs
from the checksum over the pseudo-header, TCP header and the actual payload
`[1]` that the claim (and the spec) require. -/
theorem c4_checksum_ignores_payload :
    c4sent.tcp.checksum = c4sent.tcp.calc_checksum_ipv4 c4out.1.ip []
    ∧ c4sent.tcp.checksum ≠ c4sent.tcp.calc_checksum_ipv4 c4out.1.ip [1] := by
  decide
